import Mathlib

/-
Verification of the Safe Text Normalizer of debug_float_error.py.

The script defines (lines 47-51):

    def safe_strip(value):
        if pd.isna(value) or value is None:
            return ""
        return str(value).strip()

We embed the universe of Python values the script manipulates (text,
the two absence markers None and the floating-point NaN sentinel, and
the example non-text scalars: integers and booleans) as an inductive
type, translate pd.isna, the identity test against None, str() and
str.strip, and prove the spec's properties about safe_strip.
-/

namespace DebugFloatError

/-- A dynamically typed field value as the script sees it: a text value,
one of the two absence markers (None, or the floating-point NaN sentinel
that pandas uses for a missing cell), or a non-text scalar (integer or
boolean). The NaN sentinel is represented as its own constructor: the
only property of it the script uses is that pd.isna holds of it. -/
inductive Value where
  | none : Value
  | nanV : Value
  | str : String → Value
  | int : Int → Value
  | bool : Bool → Value
deriving DecidableEq, Repr

/-- pd.isna on a scalar: true exactly on the NaN sentinel and None. -/
def pdIsna : Value → Bool
  | Value.none => true
  | Value.nanV => true
  | _ => false

/-- The Python identity test (value is None). -/
def isNone : Value → Bool
  | Value.none => true
  | _ => false

/-- Python str() on the modelled values: identity on text, the canonical
textual form of integers and booleans, and the reprs of None and NaN. -/
def pyStr : Value → String
  | Value.none => "None"
  | Value.nanV => "nan"
  | Value.str s => s
  | Value.int n => toString n
  | Value.bool b => if b then "True" else "False"

/-- The name of the Python type of a value, as it appears in the
AttributeError message the script reproduces. -/
def typeName : Value → String
  | Value.none => "NoneType"
  | Value.nanV => "float"
  | Value.str _ => "str"
  | Value.int _ => "int"
  | Value.bool _ => "bool"

/-- The whitespace characters stripped by Python str.strip (the ASCII
ones: space, tab, newline, carriage return, vertical tab, form feed). -/
def isPyWhitespace (c : Char) : Bool :=
  c == ' ' || c == '\t' || c == '\n' || c == '\r' || c == '\x0b' || c == '\x0c'

/-- str.strip on the underlying character list: drop whitespace from the
front, then from the back (via reverse). -/
def pyStripList (l : List Char) : List Char :=
  ((l.dropWhile isPyWhitespace).reverse.dropWhile isPyWhitespace).reverse

/-- Python str.strip: remove leading and trailing whitespace. -/
def pyStrip (s : String) : String :=
  String.mk (pyStripList s.data)

/-- safe_strip (debug_float_error.py lines 47-51): if pd.isna(value) or
value is None, return the empty string; otherwise return str(value).strip(). -/
def safe_strip (v : Value) : String :=
  if pdIsna v || isNone v then "" else pyStrip (pyStr v)

/-- Calling the .strip() method on a dynamically typed value, as the buggy
code at lines 25-37 does: it succeeds only on text, and raises
AttributeError (modelled as Except.error) on every other type. -/
def stripMethod : Value → Except String String
  | Value.str s => Except.ok (pyStrip s)
  | v => Except.error (typeName v ++ " object has no attribute strip")

/-- The evaluation of the body of safe_strip with the possibility of a
raised exception made explicit: the call str(value) produces a text value
and .strip() is then invoked on it through the fallible method call. -/
def safe_stripE (v : Value) : Except String String :=
  if pdIsna v || isNone v then Except.ok ""
  else stripMethod (Value.str (pyStr v))

/-- An absence marker: None or the floating-point NaN sentinel. -/
def isAbsenceMarker : Value → Bool
  | Value.none => true
  | Value.nanV => true
  | _ => false

/-- A non-text scalar that is not an absence marker: an integer or a
boolean. -/
def isNonTextScalar : Value → Bool
  | Value.int _ => true
  | Value.bool _ => true
  | _ => false

/-- safe_strip embedded in state-passing style over an arbitrary state
type: the body of safe_strip (lines 49-51) reads no non-local state and
writes none, so its state-passing translation threads the state through
unchanged and computes the same string as the pure function. -/
def safe_stripSt (σ : Type) (st : σ) (v : Value) : σ × String :=
  (st, safe_strip v)

/-- safe_strip with the explicit None check of line 49 removed, keeping
only the pd.isna test (the simplified function of the refinement claim). -/
def safe_strip_isna_only (v : Value) : String :=
  if pdIsna v then "" else pyStrip (pyStr v)

/- Helper lemmas about dropWhile and the strip operation. -/

theorem dropWhile_head_not {α : Type} (p : α → Bool) (l : List α) (a : α)
    (h : (l.dropWhile p).head? = some a) : p a = false := by
  induction l with
  | nil => exact Option.noConfusion h
  | cons b t ih =>
    rw [List.dropWhile_cons] at h
    by_cases hb : p b
    · simp only [hb, if_true] at h
      exact ih h
    · rw [if_neg hb, List.head?_cons] at h
      injection h with h
      subst h
      simpa using hb

theorem dropWhile_fix {α : Type} (p : α → Bool) (l : List α)
    (h : ∀ a, l.head? = some a → p a = false) : l.dropWhile p = l := by
  cases l with
  | nil => rfl
  | cons b t =>
    have hb := h b rfl
    simp [List.dropWhile_cons, hb]

theorem dropWhile_idem {α : Type} (p : α → Bool) (l : List α) :
    (l.dropWhile p).dropWhile p = l.dropWhile p :=
  dropWhile_fix p _ (fun a h => dropWhile_head_not p l a h)

theorem getLast?_dropWhile {α : Type} (p : α → Bool) (l : List α) (a : α)
    (h : (l.dropWhile p).getLast? = some a) : l.getLast? = some a := by
  induction l with
  | nil => simp at h
  | cons b t ih =>
    rw [List.dropWhile_cons] at h
    by_cases hb : p b
    · simp only [hb, if_true] at h
      have ht := ih h
      cases t with
      | nil => simp at ht
      | cons c u => rw [List.getLast?_cons_cons]; exact ht
    · simp only [hb, if_false] at h
      exact h

theorem pyStripList_head_not (l : List Char) (a : Char)
    (h : (pyStripList l).head? = some a) : isPyWhitespace a = false := by
  unfold pyStripList at h
  rw [List.head?_reverse] at h
  have h2 := getLast?_dropWhile _ _ _ h
  rw [List.getLast?_reverse] at h2
  exact dropWhile_head_not _ _ _ h2

theorem pyStripList_idem (l : List Char) :
    pyStripList (pyStripList l) = pyStripList l := by
  have h1 : (pyStripList l).dropWhile isPyWhitespace = pyStripList l :=
    dropWhile_fix _ _ (pyStripList_head_not l)
  show (((pyStripList l).dropWhile isPyWhitespace).reverse.dropWhile
      isPyWhitespace).reverse = pyStripList l
  rw [h1]
  show ((((l.dropWhile isPyWhitespace).reverse.dropWhile
      isPyWhitespace).reverse).reverse.dropWhile isPyWhitespace).reverse
      = pyStripList l
  rw [List.reverse_reverse, dropWhile_idem]
  rfl

theorem pyStrip_idem (s : String) : pyStrip (pyStrip s) = pyStrip s := by
  show String.mk (pyStripList (String.mk (pyStripList s.data)).data)
      = String.mk (pyStripList s.data)
  rw [show (String.mk (pyStripList s.data)).data = pyStripList s.data from rfl,
    pyStripList_idem]

/- The claims. -/

/-- C1: for every absence marker m (None or the floating-point NaN
sentinel), safe_strip m returns the empty string. -/
theorem safe_strip_absence (v : Value) (h : isAbsenceMarker v = true) :
    safe_strip v = "" := by
  cases v with
  | none => rfl
  | nanV => rfl
  | str s => simp [isAbsenceMarker] at h
  | int n => simp [isAbsenceMarker] at h
  | bool b => simp [isAbsenceMarker] at h

/-- Witness for C1: the NaN sentinel is an absence marker and safe_strip
maps it to the empty string. -/
theorem safe_strip_absence_witness :
    isAbsenceMarker Value.nanV = true ∧ safe_strip Value.nanV = "" :=
  ⟨rfl, safe_strip_absence Value.nanV rfl⟩

/-- C2: on every input the fallible evaluation of the body of safe_strip
returns normally with a text value (never an error), and that text value
is exactly safe_strip of the input. -/
theorem safe_strip_never_fails (v : Value) :
    safe_stripE v = Except.ok (safe_strip v) := by
  cases v <;> rfl

/-- C3: on every text value s, safe_strip returns s with leading and
trailing whitespace stripped. -/
theorem safe_strip_text (s : String) :
    safe_strip (Value.str s) = pyStrip s := rfl

/-- C4: on every non-text scalar that is not an absence marker (an
integer or a boolean), safe_strip returns the canonical textual
representation of the value, whitespace-stripped. -/
theorem safe_strip_scalar (v : Value) (h : isNonTextScalar v = true) :
    safe_strip v = pyStrip (pyStr v) := by
  cases v with
  | none => simp [isNonTextScalar] at h
  | nanV => simp [isNonTextScalar] at h
  | str s => simp [isNonTextScalar] at h
  | int n => rfl
  | bool b => rfl

/-- Witness for C4: the integer 42 is a non-text scalar and safe_strip
maps it to the string of its digits. -/
theorem safe_strip_scalar_witness :
    isNonTextScalar (Value.int 42) = true ∧ safe_strip (Value.int 42) = "42" := by
  refine ⟨rfl, ?_⟩
  rw [safe_strip_scalar (Value.int 42) rfl]
  decide

/-- C5: safe_strip is idempotent: normalizing the text produced by a
previous normalization changes nothing. -/
theorem safe_strip_idem (v : Value) :
    safe_strip (Value.str (safe_strip v)) = safe_strip v := by
  cases v with
  | none => rfl
  | nanV => rfl
  | str s => exact pyStrip_idem s
  | int n => exact pyStrip_idem _
  | bool b => exact pyStrip_idem _

/-- C6: safe_strip sends the missing-field marker None and the
present-but-empty field to the same output, the empty string, so the
distinction between absent and empty is not recoverable from the output. -/
theorem safe_strip_missing_vs_empty :
    safe_strip Value.none = safe_strip (Value.str "") ∧
    safe_strip Value.none = "" :=
  ⟨rfl, rfl⟩

/-- C7: the output of safe_strip never carries leading or trailing
whitespace: stripping it again is the identity. -/
theorem safe_strip_trimmed (v : Value) :
    pyStrip (safe_strip v) = safe_strip v := by
  cases v with
  | none => rfl
  | nanV => rfl
  | str s => exact pyStrip_idem s
  | int n => exact pyStrip_idem _
  | bool b => exact pyStrip_idem _

/-- C8: safe_strip is deterministic and side-effect-free: in the
state-passing embedding the state comes back unchanged, and the output
does not depend on the state, only on the input value. -/
theorem safe_strip_pure (σ : Type) (st st2 : σ) (v : Value) :
    (safe_stripSt σ st v).1 = st ∧
    (safe_stripSt σ st v).2 = (safe_stripSt σ st2 v).2 :=
  ⟨rfl, rfl⟩

/-- C9: the text values spelling nan are not treated as absence markers:
safe_strip keeps them as they are, while the actual NaN sentinel and None
map to the empty string. -/
theorem safe_strip_nan_string :
    safe_strip (Value.str "nan") = "nan" ∧
    safe_strip (Value.str "NaN") = "NaN" ∧
    safe_strip Value.nanV = "" ∧
    safe_strip Value.none = "" := by
  refine ⟨?_, ?_, rfl, rfl⟩ <;> decide

/-- C10: the explicit None check of line 49 is redundant: safe_strip is
extensionally equal to the simplified function testing only pd.isna,
because pd.isna already holds of None. -/
theorem safe_strip_none_check_redundant (v : Value) :
    safe_strip v = safe_strip_isna_only v := by
  cases v <;> rfl

end DebugFloatError
